import Mathlib

/-!
Verification of the m5stack-stockwatcher firmware (src/main.ino) against its
natural-language specification.  The source is shallowly embedded: 32-bit
unsigned arithmetic becomes Nat arithmetic modulo 4294967296, Arduino floats
become rationals (with `Option` marking the NaN sentinel), the ArduinoJson
document becomes an inductive JSON value, and the network environment
(Wi-Fi status, HTTP code, response body) is passed explicitly to the
functions that read it.
-/

namespace StockWatcher

/-! ## Refresh scheduler (main.ino lines 149-150 and 519-557) -/

/-- Source: `const uint32_t DRAW_INTERVAL_MS = 45*1000;` (line 149). -/
def DRAW_INTERVAL_MS : ℕ := 45 * 1000

/-- Modulus of `uint32_t` arithmetic: 2^32. -/
def UINT32_MOD : ℕ := 4294967296

/-- Source: `uint32_t lastDraw = -DRAW_INTERVAL_MS;` (line 150).
The unsigned negation of 45000 is 2^32 - 45000. -/
def lastDrawInit : ℕ := UINT32_MOD - DRAW_INTERVAL_MS

/-- Wrapping `uint32_t` subtraction `a - b`, for `a b < 2^32`. -/
def sub32 (a b : ℕ) : ℕ := (a + (UINT32_MOD - b % UINT32_MOD)) % UINT32_MOD

/-- Source, `loop()` lines 527-543:
`bool refreshData = now - lastDraw >= DRAW_INTERVAL_MS;`
then `refreshData = true` on a Button A press edge and on a Button B press
edge. -/
def refreshDue (now lastDraw : ℕ) (btnA btnB : Bool) : Bool :=
  decide (DRAW_INTERVAL_MS ≤ sub32 now lastDraw) || btnA || btnB

/-! ## Theorems for the scheduler claims -/

/-- C1: on each tick a refresh is due iff the wrapped elapsed time since the
last refresh is at least 45000 ms or a Button A or Button B press edge
occurred; at `now = t0 + 45000 - 1` (as uint32) with no edges it is not due,
at `now = t0 + 45000` it is due, and any edge makes it due. -/
theorem C1_scheduler (t0 now : ℕ) (a b : Bool) (ht : t0 < UINT32_MOD) :
    (refreshDue now t0 a b = true ↔
      (DRAW_INTERVAL_MS ≤ sub32 now t0 ∨ a = true ∨ b = true))
    ∧ refreshDue ((t0 + DRAW_INTERVAL_MS - 1) % UINT32_MOD) t0 false false = false
    ∧ refreshDue ((t0 + DRAW_INTERVAL_MS) % UINT32_MOD) t0 false false = true
    ∧ (a = true → refreshDue now t0 a b = true)
    ∧ (b = true → refreshDue now t0 a b = true) := by
  refine ⟨?_, ?_, ?_, ?_, ?_⟩
  · simp [refreshDue, or_assoc]
  · simp only [refreshDue, Bool.or_false, decide_eq_false_iff_not]
    simp only [sub32, DRAW_INTERVAL_MS, UINT32_MOD] at *
    omega
  · simp only [refreshDue, Bool.or_false, decide_eq_true_eq]
    simp only [sub32, DRAW_INTERVAL_MS, UINT32_MOD] at *
    omega
  · intro h; simp [refreshDue, h]
  · intro h; simp [refreshDue, h]

/-- Witness for C1 at `t0 = 0`. -/
theorem C1_scheduler_witness :
    refreshDue ((0 + DRAW_INTERVAL_MS - 1) % UINT32_MOD) 0 false false = false
    ∧ refreshDue ((0 + DRAW_INTERVAL_MS) % UINT32_MOD) 0 false false = true :=
  ⟨(C1_scheduler 0 0 false false (by norm_num [UINT32_MOD])).2.1,
   (C1_scheduler 0 0 false false (by norm_num [UINT32_MOD])).2.2.1⟩

/-- C9: `lastDraw` is initialized to the uint32 value of `-DRAW_INTERVAL_MS`,
i.e. 2^32 - 45000, so that on the first tick, for every `now` with
`now + 45000 < 2^32`, the wrapped difference `now - lastDraw` is at least
45000 and a refresh is due. -/
theorem C9_first_tick_refreshes (now : ℕ) (h : now + DRAW_INTERVAL_MS < UINT32_MOD) :
    lastDrawInit = UINT32_MOD - DRAW_INTERVAL_MS
    ∧ DRAW_INTERVAL_MS ≤ sub32 now lastDrawInit
    ∧ refreshDue now lastDrawInit false false = true := by
  refine ⟨rfl, ?_, ?_⟩
  · simp only [sub32, lastDrawInit, DRAW_INTERVAL_MS, UINT32_MOD] at *
    omega
  · simp only [refreshDue, Bool.or_false, decide_eq_true_eq]
    simp only [sub32, lastDrawInit, DRAW_INTERVAL_MS, UINT32_MOD] at *
    omega

/-- Witness for C9 at `now = 0`. -/
theorem C9_first_tick_refreshes_witness :
    refreshDue 0 lastDrawInit false false = true :=
  (C9_first_tick_refreshes 0 (by norm_num [DRAW_INTERVAL_MS, UINT32_MOD])).2.2

/-! ## Numeric text parsing (model of Arduino `String::toFloat`, i.e. `atof`) -/

/-- Splits off the longest leading run of decimal digits. -/
def takeDigits : List Char → List Char × List Char
  | [] => ([], [])
  | c :: t =>
    if c.isDigit then ((takeDigits t).1.cons c, (takeDigits t).2)
    else ([], c :: t)

/-- Value of a most-significant-first digit string, accumulator style. -/
def digitsValAux (acc : ℕ) : List Char → ℕ
  | [] => acc
  | d :: ds => digitsValAux (acc * 10 + (d.toNat - 48)) ds

/-- Value of a most-significant-first digit string (empty list yields 0). -/
def digitsVal (ds : List Char) : ℕ := digitsValAux 0 ds

/-- Unsigned part of `atof`: leading digits, then an optional fractional
part after a decimal point.  No conversion at all yields 0. -/
def parseUnsignedC (cs : List Char) : ℚ :=
  match (takeDigits cs).2 with
  | '.' :: rest2 =>
    (digitsVal (takeDigits cs).1 : ℚ)
      + (digitsVal (takeDigits rest2).1 : ℚ) / (10 : ℚ) ^ (takeDigits rest2).1.length
  | _ => (digitsVal (takeDigits cs).1 : ℚ)

/-- Model of Arduino `String::toFloat` (which calls `atof`): skip leading
spaces, parse an optional sign and then an unsigned decimal number; 0 when
no conversion can be performed.  (The exponent form is not modelled; the
program only ever converts 4-character slices.) -/
def toFloatC (cs : List Char) : ℚ :=
  match cs.dropWhile (fun c => c == ' ') with
  | [] => 0
  | c :: rest =>
    if c == '-' then -(parseUnsignedC rest)
    else if c == '+' then parseUnsignedC rest
    else parseUnsignedC (c :: rest)

/-- Model of Arduino `String::indexOf`: index of the first occurrence of
`pat` in `s` (`none` for C's -1). -/
def listIndexOf (pat : List Char) : List Char → Option ℕ
  | [] => if pat.isPrefixOf ([] : List Char) then some 0 else none
  | c :: t =>
    if pat.isPrefixOf (c :: t) then some 0
    else (listIndexOf pat t).map (· + 1)

/-! ## JSON model (the ArduinoJson `StaticJsonDocument doc`, line 156) -/

/-- A parsed JSON value, as held by the global ArduinoJson document. -/
inductive Json where
  | null : Json
  | bool (b : Bool) : Json
  | num (q : ℚ) : Json
  | str (s : String) : Json
  | arr (elems : List Json) : Json
  | obj (fields : List (String × Json)) : Json

/-- Member access `doc[key]`: looks a key up in an object; any other value,
or a missing key, yields the null variant (ArduinoJson semantics). -/
def Json.get : Json → String → Json
  | Json.obj fields, k => ((fields.lookup k).getD Json.null)
  | _, _ => Json.null

/-- ArduinoJson `as<float>()` / `as<double>()` conversion: a number converts
to its value, `true` to 1 and `false` to 0, a string to its parsed numeric
prefix, and null (in particular a missing member), arrays and objects
convert to 0. -/
def Json.asFloat : Json → ℚ
  | Json.num q => q
  | Json.bool b => if b then 1 else 0
  | Json.str s => toFloatC s.data
  | _ => 0

/-- ArduinoJson `as<String>()` conversion: a string converts to itself and
any other variant to its serialized text (numbers are modelled with
`toString` of the rational; arrays and objects, never used by the sketch,
are modelled as empty). -/
def Json.asStringA : Json → String
  | Json.str s => s
  | Json.null => ("null")
  | Json.bool b => if b then ("true") else ("false")
  | Json.num q => toString q
  | _ => ("")

/-! ## Stock state and quote fetching (main.ino lines 98-126 and 323-391) -/

/-- The `Stock` class (lines 98-126).  Arduino floats are modelled as
`Option ℚ` with `none` playing the role of the NaN sentinel. -/
structure Stock where
  last : Option ℚ
  bid : Option ℚ
  ask : Option ℚ
  volume : Option ℚ
  symbol : String
  lastTradeTime : String
  deltaIndicator : String
deriving DecidableEq

/-- `Stock::Set` (lines 105-113): stores the symbol and resets every other
field, the numeric ones to NaN. -/
def Stock.Set (symbol_val : String) : Stock :=
  { last := none, bid := none, ask := none, volume := none,
    symbol := symbol_val, lastTradeTime := "", deltaIndicator := "" }

/-- `HTTP_CODE_OK` of the ESP32 HTTPClient. -/
def HTTP_CODE_OK : Int := 200

/-- The network environment a quote fetch runs in: Wi-Fi status,
whether `http.begin(url)` succeeds, the HTTP status code, and the
`deserializeJson` result of the response body (`none` = parse error). -/
structure NetEnv where
  wifiConnected : Bool
  beginOk : Bool
  httpCode : Int
  parsed : Option Json

/-- `fetchPayloadFromInternet` (lines 323-362) composed with `parsePayload`
(lines 364-374): fails when Wi-Fi is down, when `http.begin` fails, or when
the HTTP status is not `HTTP_CODE_OK`; otherwise the global document holds
the `deserializeJson` result, and the call fails exactly when that parse
errored.  The returned `Option Json` is the success flag together with the
document contents on success. -/
def fetchPayloadFromInternet (env : NetEnv) : Option Json :=
  if env.wifiConnected = false then none
  else if env.beginOk = false then none
  else if env.httpCode ≠ HTTP_CODE_OK then none
  else env.parsed

/-- `getStockPrice(symbol)` (lines 376-391): on fetch failure returns false
and leaves the global `stock` untouched; on success calls `stock.Set(symbol)`
and then unconditionally assigns every field from `doc[symbol]`. -/
def getStockPrice (env : NetEnv) (symbol : String) (st : Stock) : Bool × Stock :=
  match fetchPayloadFromInternet env with
  | none => (false, st)
  | some doc =>
    let st1 := Stock.Set symbol
    (true,
      { st1 with
        last := some ((doc.get symbol).get ("last")).asFloat,
        bid := some ((doc.get symbol).get ("bid")).asFloat,
        ask := some ((doc.get symbol).get ("ask")).asFloat,
        volume := some ((doc.get symbol).get ("volume")).asFloat,
        deltaIndicator := ((doc.get symbol).get ("deltaIndicator")).asStringA,
        lastTradeTime := ((doc.get symbol).get ("lastTradeTime")).asStringA })

/-- The symbol selected by the `settingStock` toggle
(`drawClockAndDate`, lines 435-440). -/
def selectedSymbol (settingStock : Bool) : String :=
  if settingStock then ("ASTS") else ("NVDA")

/-- The quote-refresh step of `drawClockAndDate` (lines 435-444): fetch the
quote for the currently selected symbol. -/
def refreshQuote (settingStock : Bool) (env : NetEnv) (st : Stock) : Bool × Stock :=
  getStockPrice env (selectedSymbol settingStock) st

/-- Spec-worded predicate, for comparison with the code: the parsed document
"lacks a sub-object keyed by the requested symbol". -/
def specLacksSymbolObj (d : Json) (sym : String) : Bool :=
  match d.get sym with
  | Json.obj _ => false
  | _ => true

/-- Environment with Wi-Fi disconnected. -/
def envWifiDown : NetEnv :=
  { wifiConnected := false, beginOk := true, httpCode := 200, parsed := none }

/-- Environment where everything succeeds but the body parses to the empty
JSON object, which has no symbol sub-object. -/
def envEmptyObj : NetEnv :=
  { wifiConnected := true, beginOk := true, httpCode := 200,
    parsed := some (Json.obj []) }

/-- Environment where the body parses to an object whose NVDA sub-object is
empty, so every quote field is missing. -/
def envNvdaEmpty : NetEnv :=
  { wifiConnected := true, beginOk := true, httpCode := 200,
    parsed := some (Json.obj [(("NVDA"), Json.obj [])]) }

/-! ## Theorems for the quote-fetch claims -/

/-- C2: whenever the quote fetch fails — in particular when Wi-Fi is
unreachable, the HTTP status is not OK, or the body is unparsable — the
stored quote is left exactly identical to its pre-call value. -/
theorem C2_failure_preserves_quote (env : NetEnv) (sym : String) (st : Stock) :
    ((getStockPrice env sym st).1 = false → (getStockPrice env sym st).2 = st)
    ∧ (env.wifiConnected = false → (getStockPrice env sym st).2 = st)
    ∧ (env.httpCode ≠ HTTP_CODE_OK → (getStockPrice env sym st).2 = st)
    ∧ (env.parsed = none → (getStockPrice env sym st).2 = st) := by
  obtain ⟨w, bo, c, p⟩ := env
  by_cases hc : c = HTTP_CODE_OK <;>
    rcases w <;> rcases bo <;> rcases p <;>
      simp [getStockPrice, fetchPayloadFromInternet, hc]

/-- Witness for C2: a Wi-Fi-down fetch leaves a concrete stock unchanged. -/
theorem C2_failure_preserves_quote_witness :
    (getStockPrice envWifiDown ("NVDA") (Stock.Set ("NVDA"))).2 = Stock.Set ("NVDA") :=
  (C2_failure_preserves_quote envWifiDown ("NVDA") (Stock.Set ("NVDA"))).2.1 rfl

/-- C3 counterexample: with Wi-Fi up, status OK and a body that parses to
the empty JSON object — which lacks a sub-object keyed by "NVDA" —
`getStockPrice` nevertheless reports success, contradicting the claim that
a missing symbol sub-object is reported as failure. -/
theorem C3_cex_missing_symbol_succeeds :
    (getStockPrice envEmptyObj ("NVDA") (Stock.Set (""))).1 = true
    ∧ specLacksSymbolObj (Json.obj []) ("NVDA") = true := by
  exact ⟨rfl, rfl⟩

/-- C3 amended: the quote fetch reports success iff Wi-Fi is connected,
`http.begin` succeeds, the HTTP status is OK and the body parses as JSON;
a parsed document lacking the symbol sub-object still reports success. -/
theorem C3_amended_success_iff (env : NetEnv) (sym : String) (st : Stock) :
    (getStockPrice env sym st).1 = true ↔
      (env.wifiConnected = true ∧ env.beginOk = true
        ∧ env.httpCode = HTTP_CODE_OK ∧ env.parsed.isSome = true) := by
  obtain ⟨w, bo, c, p⟩ := env
  by_cases hc : c = HTTP_CODE_OK <;>
    rcases w <;> rcases bo <;> rcases p <;>
      simp [getStockPrice, fetchPayloadFromInternet, hc]

/-- C7 counterexample: on a successful fetch whose symbol sub-object is
empty, the "last" member is missing (null), yet the stored field becomes 0
rather than the not-a-number sentinel the claim requires. -/
theorem C7_cex_missing_field_is_zero :
    (getStockPrice envNvdaEmpty ("NVDA") (Stock.Set (""))).1 = true
    ∧ ((Json.obj [(("NVDA"), Json.obj [])]).get ("NVDA")).get ("last") = Json.null
    ∧ (getStockPrice envNvdaEmpty ("NVDA") (Stock.Set (""))).2.last = some 0
    ∧ some (0 : ℚ) ≠ (none : Option ℚ) := by
  refine ⟨rfl, rfl, rfl, by simp⟩

/-- C7 amended: on a successful quote fetch each numeric field is set to the
ArduinoJson float conversion of the corresponding member of the symbol
sub-object; that conversion yields 0 (not NaN) for a missing or null member,
so after a successful fetch no numeric field holds the NaN sentinel. -/
theorem C7_amended_numeric_fields (env : NetEnv) (sym : String) (st : Stock)
    (doc : Json) (h : fetchPayloadFromInternet env = some doc) :
    (getStockPrice env sym st).2.last = some ((doc.get sym).get ("last")).asFloat
    ∧ (getStockPrice env sym st).2.bid = some ((doc.get sym).get ("bid")).asFloat
    ∧ (getStockPrice env sym st).2.ask = some ((doc.get sym).get ("ask")).asFloat
    ∧ (getStockPrice env sym st).2.volume = some ((doc.get sym).get ("volume")).asFloat
    ∧ (getStockPrice env sym st).2.last ≠ none
    ∧ Json.null.asFloat = 0 := by
  simp [getStockPrice, h, Json.asFloat]

/-- Witness for C7 amended, at the concrete all-fields-missing environment. -/
theorem C7_amended_numeric_fields_witness :
    (getStockPrice envNvdaEmpty ("NVDA") (Stock.Set (""))).2.volume = some 0 :=
  (C7_amended_numeric_fields envNvdaEmpty ("NVDA") (Stock.Set (""))
    (Json.obj [(("NVDA"), Json.obj [])]) rfl).2.2.2.1

/-- C8: after any successful refresh, the stored quote's symbol equals the
symbol selected by the `settingStock` toggle at the time of the fetch. -/
theorem C8_symbol_matches_selected (s : Bool) (env : NetEnv) (st : Stock)
    (h : (refreshQuote s env st).1 = true) :
    (refreshQuote s env st).2.symbol = selectedSymbol s := by
  cases hfp : fetchPayloadFromInternet env with
  | none => simp [refreshQuote, getStockPrice, hfp] at h
  | some d => simp [refreshQuote, getStockPrice, hfp, Stock.Set]

/-- Witness for C8 at a concrete successful refresh. -/
theorem C8_symbol_matches_selected_witness :
    (refreshQuote false envEmptyObj (Stock.Set (""))).2.symbol = selectedSymbol false :=
  C8_symbol_matches_selected false envEmptyObj (Stock.Set ("")) rfl

/-! ## Sea-level pressure fetch (`fetchQNH`, main.ino lines 290-321) -/

/-- Source: `const float SEA_LEVEL_HPA = 1013.25f;` (line 153). -/
def SEA_LEVEL_HPA : ℚ := 1013.25

/-- The environment a QNH fetch runs in: Wi-Fi status, HTTP status code and
the response body text. -/
structure QnhEnv where
  wifi : Bool
  httpCode : Int
  body : List Char

/-- Lines 305-306: `int idx = payload.indexOf(" Q");
if (idx == -1) idx = payload.indexOf("\nQ");`. -/
def qnhIdx (payload : List Char) : Option ℕ :=
  match listIndexOf (' ' :: 'Q' :: []) payload with
  | some i => some i
  | none => listIndexOf ('\n' :: 'Q' :: []) payload

/-- `fetchQNH()` (lines 290-321): fallback when Wi-Fi is down, when the GET
returns a non-positive code, or when the code is not OK; otherwise looks for
the marker index, and only when that index is strictly positive converts the
4 characters after the marker with `toFloat`; in every other case returns
the fallback constant. -/
def fetchQNH (env : QnhEnv) : ℚ :=
  if env.wifi = false then SEA_LEVEL_HPA
  else if env.httpCode > 0 then
    if env.httpCode = HTTP_CODE_OK then
      match qnhIdx env.body with
      | some idx =>
        if idx > 0 then toFloatC ((env.body.drop (idx + 2)).take 4)
        else SEA_LEVEL_HPA
      | none => SEA_LEVEL_HPA
    else SEA_LEVEL_HPA
  else SEA_LEVEL_HPA

/-- Spec-worded predicate, for comparison with the code: the body contains a
token consisting of `Q` followed by exactly 4 digits, appearing after a
space or at the start of a line. -/
def specHasQ4Token (cs : List Char) : Bool :=
  (List.range cs.length).any (fun i =>
    (cs.getD i ' ' == 'Q')
    && (decide (i = 0) || (cs.getD (i - 1) 'x' == ' ') || (cs.getD (i - 1) 'x' == '\n'))
    && (cs.getD (i + 1) ' ').isDigit && (cs.getD (i + 2) ' ').isDigit
    && (cs.getD (i + 3) ' ').isDigit && (cs.getD (i + 4) ' ').isDigit
    && !(cs.getD (i + 5) ' ').isDigit)

/-- A well-formed METAR body whose `Q1019` token follows a space at a
positive index. -/
def metarBody : List Char :=
  ("EDDB 251200Z 24008KT 9999 FEW035 12/08 Q1019 NOSIG=").data

/-- A body whose `Q1019` token follows a space at the very start, so the
marker index is 0. -/
def bodyLeadingQ : List Char := (" Q1019 NOSIG=").data

/-- A body where the marker `" Q"` is followed by non-digits. -/
def bodyNoDigits : List Char := ("x QNHxx").data

/-- `toFloat` of four digit characters is their decimal value. -/
theorem toFloatC_digits4 (d1 d2 d3 d4 : Char)
    (h1 : d1.isDigit = true) (h2 : d2.isDigit = true)
    (h3 : d3.isDigit = true) (h4 : d4.isDigit = true) :
    toFloatC [d1, d2, d3, d4] = (digitsVal [d1, d2, d3, d4] : ℚ) := by
  have ne1 : d1 ≠ ' ' := by intro e; rw [e] at h1; exact absurd h1 (by decide)
  have ne2 : d1 ≠ '-' := by intro e; rw [e] at h1; exact absurd h1 (by decide)
  have ne3 : d1 ≠ '+' := by intro e; rw [e] at h1; exact absurd h1 (by decide)
  simp [toFloatC, parseUnsignedC, takeDigits, h1, h2, h3, h4, ne1, ne2, ne3]

/-! ## Theorems for the QNH claims -/

/-- C10: when the first occurrence of `" Q"` in an OK response body is at
index 0, `fetchQNH` returns the fallback even though a valid `Q####` token
follows a space at the start of the body; witnessed concretely by the body
`" Q1019 NOSIG="`. -/
theorem C10_marker_at_index_zero :
    (∀ env : QnhEnv, env.wifi = true → env.httpCode = HTTP_CODE_OK →
      listIndexOf (' ' :: 'Q' :: []) env.body = some 0 →
      fetchQNH env = SEA_LEVEL_HPA)
    ∧ specHasQ4Token bodyLeadingQ = true
    ∧ fetchQNH { wifi := true, httpCode := 200, body := bodyLeadingQ } = SEA_LEVEL_HPA
    ∧ SEA_LEVEL_HPA = 1013.25 := by
  have hgen : ∀ env : QnhEnv, env.wifi = true → env.httpCode = HTTP_CODE_OK →
      listIndexOf (' ' :: 'Q' :: []) env.body = some 0 →
      fetchQNH env = SEA_LEVEL_HPA := by
    intro env hw hc hidx
    obtain ⟨w, c, body⟩ := env
    dsimp at hw hc hidx
    subst hw hc
    simp [fetchQNH, qnhIdx, hidx, HTTP_CODE_OK]
  exact ⟨hgen, by decide,
    hgen { wifi := true, httpCode := 200, body := bodyLeadingQ } rfl rfl (by decide),
    rfl⟩

/-- Witness for C10's general part at the concrete leading-marker body. -/
theorem C10_marker_at_index_zero_witness :
    fetchQNH { wifi := true, httpCode := 200, body := bodyLeadingQ } = SEA_LEVEL_HPA :=
  C10_marker_at_index_zero.1
    { wifi := true, httpCode := 200, body := bodyLeadingQ } rfl rfl (by decide)

/-- C5 counterexample: the body `"x QNHxx"` contains no `Q`-followed-by-4-
digits token, so the claim requires the fallback 1013.25; but the code finds
the marker `" Q"` at index 1 and converts the junk `"NHxx"` with `toFloat`,
returning 0. -/
theorem C5_cex_garbage_after_marker :
    specHasQ4Token bodyNoDigits = false
    ∧ fetchQNH { wifi := true, httpCode := 200, body := bodyNoDigits } = 0
    ∧ (0 : ℚ) ≠ SEA_LEVEL_HPA := by
  refine ⟨by decide, by decide, by norm_num [SEA_LEVEL_HPA]⟩

/-- C5 amended: `fetchQNH` never fails: it returns the fallback 1013.25 when
Wi-Fi is unreachable, the HTTP code is non-positive or not OK, or when
neither `" Q"` nor `"\nQ"` occurs in the body; when `" Q"` first occurs at a
strictly positive index it converts the following 4 characters with
`toFloat`, which yields their decimal value when they are 4 digits
(e.g. the METAR body with `Q1019` yields 1019) but can yield other values
(such as 0) when they are not. -/
theorem C5_amended_fetchQNH :
    (∀ env : QnhEnv,
      env.wifi = false ∨ env.httpCode ≤ 0 ∨ env.httpCode ≠ HTTP_CODE_OK →
      fetchQNH env = SEA_LEVEL_HPA)
    ∧ (∀ env : QnhEnv, env.wifi = true → env.httpCode = HTTP_CODE_OK →
        listIndexOf (' ' :: 'Q' :: []) env.body = none →
        listIndexOf ('\n' :: 'Q' :: []) env.body = none →
        fetchQNH env = SEA_LEVEL_HPA)
    ∧ (∀ (env : QnhEnv) (i : ℕ) (d1 d2 d3 d4 : Char), env.wifi = true →
        env.httpCode = HTTP_CODE_OK →
        listIndexOf (' ' :: 'Q' :: []) env.body = some i → 0 < i →
        (env.body.drop (i + 2)).take 4 = [d1, d2, d3, d4] →
        d1.isDigit = true → d2.isDigit = true → d3.isDigit = true →
        d4.isDigit = true →
        fetchQNH env = (digitsVal [d1, d2, d3, d4] : ℚ))
    ∧ fetchQNH { wifi := true, httpCode := 200, body := metarBody } = 1019 := by
  refine ⟨?_, ?_, ?_, by decide⟩
  · intro env h
    obtain ⟨w, c, body⟩ := env
    rcases w with _ | _
    · simp [fetchQNH]
    · dsimp at h
      rcases h with h | h | h
      · exact absurd h (by simp)
      · have hng : ¬((c : Int) > 0) := by omega
        simp [fetchQNH, hng]
      · by_cases hp : (c : Int) > 0
        · simp [fetchQNH, hp, h]
        · simp [fetchQNH, hp]
  · intro env hw hc h1 h2
    obtain ⟨w, c, body⟩ := env
    dsimp at hw hc h1 h2
    subst hw hc
    simp [fetchQNH, qnhIdx, h1, h2, HTTP_CODE_OK]
  · intro env i d1 d2 d3 d4 hw hc hidx hpos htake h1 h2 h3 h4
    obtain ⟨w, c, body⟩ := env
    dsimp at hw hc hidx htake
    subst hw hc
    simp only [fetchQNH, qnhIdx, hidx, HTTP_CODE_OK]
    rw [if_neg (by simp), if_pos (by norm_num), if_pos (by norm_num)]
    rw [if_pos hpos, htake]
    exact toFloatC_digits4 d1 d2 d3 d4 h1 h2 h3 h4

/-- Witness for C5 amended at concrete environments. -/
theorem C5_amended_fetchQNH_witness :
    fetchQNH { wifi := false, httpCode := 200, body := [] } = SEA_LEVEL_HPA :=
  C5_amended_fetchQNH.1 { wifi := false, httpCode := 200, body := [] } (Or.inl rfl)

/-! ## Text rendering (drawTopBar lines 393-425, drawClockAndDate 446-476) -/

/-- The character of a decimal digit. -/
def digitChar (d : ℕ) : Char := Char.ofNat (48 + d % 10)

/-- Decimal digit characters of `n`, most significant first (empty for 0). -/
def natChars (n : ℕ) : List Char :=
  if n = 0 then [] else natChars (n / 10) ++ [digitChar (n % 10)]
termination_by n
decreasing_by omega

/-- Decimal text of a natural number (0 prints as "0"). -/
def natStr (n : ℕ) : List Char := if n = 0 then [('0')] else natChars n

/-- Decimal text of an integer. -/
def intStr (i : ℤ) : List Char :=
  if i < 0 then '-' :: natStr i.natAbs else natStr i.natAbs

/-- Left-pads with zeros to width `w` (`%0wd` and the fractional part of a
fixed-point print). -/
def padZeros (w : ℕ) (cs : List Char) : List Char :=
  List.replicate (w - cs.length) '0' ++ cs

/-- Fixed-point decimal text of a rational with `d` decimals, rounding half
away from zero: the model of Arduino `String(float, d)` and of printf
`%.df` on a non-NaN value. -/
def fmtFixed (q : ℚ) (d : ℕ) : List Char :=
  (if q < 0 then [('-')] else []) ++
    (if d = 0 then natStr (Int.floor (|q| * 10 ^ d + 1 / 2)).toNat
     else natStr ((Int.floor (|q| * 10 ^ d + 1 / 2)).toNat / 10 ^ d)
       ++ '.' :: padZeros d (natStr ((Int.floor (|q| * 10 ^ d + 1 / 2)).toNat % 10 ^ d)))

/-- printf `%.2f` on an Arduino float: a NaN prints as the literal "nan",
any other value in fixed-point with 2 decimals.  Used by the main-area
buffers (lines 452-453), which have no NaN guard. -/
def fmtF2 : Option ℚ → List Char
  | none => [('n'), ('a'), ('n')]
  | some q => fmtFixed q 2

/-- Whether the text contains the literal token "nan". -/
def hasNan (cs : List Char) : Bool :=
  (listIndexOf [('n'), ('a'), ('n')] cs).isSome

/-- The guarded field print `isnan(x) ? "--" : String(x, d)` used by the
top bar. -/
def optFmt (x : Option ℚ) (d : ℕ) : List Char :=
  match x with
  | none => ("--").data
  | some v => fmtFixed v d

/-- Top-bar line 1 (lines 404-411): temperature with 1 decimal or "--",
humidity with 0 decimals or "--", battery percentage. -/
def drawTopBarLine1 (tempC hum : Option ℚ) (batt : ℤ) : List Char :=
  optFmt tempC 1 ++ (" C H:").data ++ optFmt hum 0 ++ ("%").data
    ++ (" B:").data ++ intStr batt ++ ("%").data

/-- Top-bar line 2 (lines 418-424): pressure with 1 decimal or "--",
altitude with 0 decimals or "--". -/
def drawTopBarLine2 (pressure altitude : Option ℚ) : List Char :=
  optFmt pressure 1 ++ (" Pa  A: ").data ++ optFmt altitude 0 ++ ("m").data

/-- Main-area buffer 1 (line 452): `snprintf(tbuf1, 20, "%s:%.2f", symbol,
stock.last)`; the 20-byte buffer truncates to 19 characters. -/
def tbuf1 (symbol : String) (last : Option ℚ) : List Char :=
  (symbol.data ++ ':' :: fmtF2 last).take 19

/-- Main-area buffer 2 (line 453): `snprintf(tbuf2, 20, "%.2f / %.2f",
stock.bid, stock.ask)`. -/
def tbuf2 (bid ask : Option ℚ) : List Char :=
  (fmtF2 bid ++ (" / ").data ++ fmtF2 ask).take 19

/-- Main-area buffer 3 (line 454): the `YYYY-MM-DD HH:MM` timestamp, taking
the already-offset display values (`tm_year + 1900`, `tm_mon + 1`, ...). -/
def tbuf3 (year mon mday hour minute : ℕ) : List Char :=
  (padZeros 4 (natStr year) ++ '-' :: padZeros 2 (natStr mon)
    ++ '-' :: padZeros 2 (natStr mday) ++ ' ' :: padZeros 2 (natStr hour)
    ++ ':' :: padZeros 2 (natStr minute)).take 19

/-! ### Character lemmas: numeric text never contains the letter n -/

/-- No digit character below 10 is the letter n. -/
theorem digitChar_bounds : ∀ k < 10, Char.ofNat (48 + k) ≠ 'n' := by decide

/-- `digitChar` never yields the letter n. -/
theorem digitChar_ne_n (d : ℕ) : digitChar d ≠ 'n' :=
  digitChar_bounds (d % 10) (Nat.mod_lt d (by norm_num))

/-- `natChars` never contains the letter n. -/
theorem natChars_ne_n (n : ℕ) : 'n' ∉ natChars n := by
  induction n using Nat.strong_induction_on with
  | _ n ih =>
    by_cases h : n = 0
    · rw [natChars, if_pos h]
      simp
    · rw [natChars, if_neg h]
      intro hmem
      rcases List.mem_append.mp hmem with h1 | h2
      · exact ih (n / 10) (Nat.div_lt_self (Nat.pos_of_ne_zero h) (by norm_num)) h1
      · exact digitChar_ne_n (n % 10) (List.mem_singleton.mp h2).symm

/-- `natStr` never contains the letter n. -/
theorem natStr_ne_n (n : ℕ) : 'n' ∉ natStr n := by
  unfold natStr
  split
  · simp
  · exact natChars_ne_n n

/-- `intStr` never contains the letter n. -/
theorem intStr_ne_n (i : ℤ) : 'n' ∉ intStr i := by
  unfold intStr
  split
  · intro hmem
    rcases List.mem_cons.mp hmem with h | h
    · exact absurd h (by decide)
    · exact natStr_ne_n _ h
  · exact natStr_ne_n _

/-- `padZeros` adds no letter n. -/
theorem padZeros_ne_n (w : ℕ) (cs : List Char) (h : 'n' ∉ cs) :
    'n' ∉ padZeros w cs := by
  unfold padZeros
  intro hmem
  rcases List.mem_append.mp hmem with h1 | h1
  · exact absurd (List.eq_of_mem_replicate h1) (by decide)
  · exact h h1

/-- Fixed-point text never contains the letter n. -/
theorem fmtFixed_ne_n (q : ℚ) (d : ℕ) : 'n' ∉ fmtFixed q d := by
  unfold fmtFixed
  intro hmem
  rcases List.mem_append.mp hmem with h1 | h1
  · revert h1
    split <;> simp
  · revert h1
    split
    · exact fun h1 => natStr_ne_n _ h1
    · intro h1
      rcases List.mem_append.mp h1 with h2 | h2
      · exact natStr_ne_n _ h2
      · rcases List.mem_cons.mp h2 with h3 | h3
        · exact absurd h3 (by decide)
        · exact padZeros_ne_n _ _ (natStr_ne_n _) h3

/-- A text without the letter n cannot contain the token "nan". -/
theorem hasNan_of_no_n (cs : List Char) (h : 'n' ∉ cs) : hasNan cs = false := by
  unfold hasNan
  suffices hidx : listIndexOf [('n'), ('a'), ('n')] cs = none by
    rw [hidx]; rfl
  induction cs with
  | nil => rfl
  | cons c t ih =>
    have hc : c ≠ 'n' := fun e => h (e ▸ List.mem_cons_self c t)
    have hpre : List.isPrefixOf [('n'), ('a'), ('n')] (c :: t) = false := by
      simp [List.isPrefixOf, hc]
      intro e
      exact absurd e.symm hc
    rw [listIndexOf, hpre]
    simp [ih (fun hm => h (List.mem_cons_of_mem c hm))]

/-- Concatenation of n-free texts is n-free. -/
theorem no_n_append (xs ys : List Char) (hx : 'n' ∉ xs) (hy : 'n' ∉ ys) :
    'n' ∉ xs ++ ys := by
  intro hmem
  rcases List.mem_append.mp hmem with h | h
  · exact hx h
  · exact hy h

/-- Truncation of an n-free text is n-free. -/
theorem no_n_take (n : ℕ) (cs : List Char) (h : 'n' ∉ cs) : 'n' ∉ cs.take n :=
  fun hm => h (List.take_subset n cs hm)

/-- Prepending a non-n character keeps a text n-free. -/
theorem no_n_cons (c : Char) (cs : List Char) (hc : c ≠ 'n') (h : 'n' ∉ cs) :
    'n' ∉ c :: cs := by
  intro hmem
  rcases List.mem_cons.mp hmem with h1 | h1
  · exact hc h1.symm
  · exact h h1

/-- A guarded field print never contains the letter n. -/
theorem optFmt_ne_n (x : Option ℚ) (d : ℕ) : 'n' ∉ optFmt x d := by
  rcases x with _ | v
  · show 'n' ∉ ("--").data
    decide
  · exact fmtFixed_ne_n v d

/-! ## Theorems for the renderer claim -/

/-- C4 counterexample: for the absent (NaN) `last` value that the initial
`Stock` holds, the main-area buffer renders the literal token "nan" — i.e.
`"NVDA:nan"` — rather than the placeholder "--", so the rendered output does
contain a not-a-number token. -/
theorem C4_cex_nan_rendered :
    (Stock.Set ("")).last = none
    ∧ tbuf1 (selectedSymbol false) ((Stock.Set ("")).last) = ("NVDA:nan").data
    ∧ hasNan (tbuf1 (selectedSymbol false) ((Stock.Set ("")).last)) = true := by
  refine ⟨rfl, by decide, by decide⟩

/-- C4 amended: the top-bar fields (temperature, humidity, pressure,
altitude) and the date line are NaN-guarded — an absent field renders as
"--" and those strings never contain a "nan" token — but the main-area
fields `last`, `bid`, `ask` are formatted with an unguarded `%.2f`, so an
absent (NaN) value there renders as the literal token "nan". -/
theorem C4_amended_renderer :
    (∀ (t h : Option ℚ) (b : ℤ), hasNan (drawTopBarLine1 t h b) = false)
    ∧ (∀ p a : Option ℚ, hasNan (drawTopBarLine2 p a) = false)
    ∧ (∀ y mo d hh mi : ℕ, hasNan (tbuf3 y mo d hh mi) = false)
    ∧ drawTopBarLine1 none none 0 = ("-- C H:--% B:0%").data
    ∧ drawTopBarLine2 none none = ("-- Pa  A: --m").data
    ∧ (∀ s : Bool, hasNan (tbuf1 (selectedSymbol s) none) = true)
    ∧ hasNan (tbuf2 none none) = true := by
  refine ⟨?_, ?_, ?_, by decide, by decide, ?_, by decide⟩
  · intro t h b
    refine hasNan_of_no_n _ ?_
    unfold drawTopBarLine1
    refine no_n_append _ _ ?_ (by decide)
    refine no_n_append _ _ ?_ (intStr_ne_n b)
    refine no_n_append _ _ ?_ (by decide)
    refine no_n_append _ _ ?_ (by decide)
    refine no_n_append _ _ ?_ (optFmt_ne_n h 0)
    exact no_n_append _ _ (optFmt_ne_n t 1) (by decide)
  · intro p a
    refine hasNan_of_no_n _ ?_
    unfold drawTopBarLine2
    refine no_n_append _ _ ?_ (by decide)
    refine no_n_append _ _ ?_ (optFmt_ne_n a 0)
    exact no_n_append _ _ (optFmt_ne_n p 1) (by decide)
  · intro y mo d hh mi
    refine hasNan_of_no_n _ ?_
    unfold tbuf3
    refine no_n_take _ _ ?_
    refine no_n_append _ _ ?_
      (no_n_cons _ _ (by decide) (padZeros_ne_n _ _ (natStr_ne_n mi)))
    refine no_n_append _ _ ?_
      (no_n_cons _ _ (by decide) (padZeros_ne_n _ _ (natStr_ne_n hh)))
    refine no_n_append _ _ ?_
      (no_n_cons _ _ (by decide) (padZeros_ne_n _ _ (natStr_ne_n d)))
    exact no_n_append _ _ (padZeros_ne_n _ _ (natStr_ne_n y))
      (no_n_cons _ _ (by decide) (padZeros_ne_n _ _ (natStr_ne_n mo)))
  · intro s
    rcases s <;> decide

/-! ## Altitude computation (`drawScreen`, main.ino lines 479-517) -/

/-- The altitude step of `drawScreen` (lines 504-509): `altitude` stays NaN
unless the local pressure is present and strictly positive, and otherwise is
`44330.0f * (1.0f - pow(pressHpa / seaLevel, 1.0f / 5.255f))`.  Floats are
idealized as reals; `none` is the NaN sentinel. -/
noncomputable def computeAltitude (pressHpa : Option ℝ) (seaLevelHpa : ℝ) : Option ℝ :=
  match pressHpa with
  | none => none
  | some p =>
    if p > 0 then some (44330 * (1 - Real.rpow (p / seaLevelHpa) (1 / 5.255)))
    else none

/-- C6: the computed altitude is absent (NaN) iff the local pressure is
absent or nonpositive; otherwise it equals the barometric formula, and for
equal positive local and sea-level pressures it is 0. -/
theorem C6_altitude (p : Option ℝ) (s : ℝ) :
    (p = none → computeAltitude p s = none)
    ∧ (∀ q : ℝ, p = some q → q ≤ 0 → computeAltitude p s = none)
    ∧ (∀ q : ℝ, p = some q → 0 < q →
        computeAltitude p s = some (44330 * (1 - Real.rpow (q / s) (1 / 5.255))))
    ∧ (∀ q : ℝ, p = some q → 0 < q → s = q → computeAltitude p s = some 0) := by
  refine ⟨?_, ?_, ?_, ?_⟩
  · rintro rfl
    rfl
  · rintro q rfl hq
    simp [computeAltitude, not_lt.mpr hq]
  · rintro q rfl hq
    simp [computeAltitude, hq]
  · rintro q rfl hq rfl
    simp [computeAltitude, hq, div_self (ne_of_gt hq), Real.one_rpow]

/-- Witness for C6 at concrete pressures (1013.25 hPa at sea level). -/
theorem C6_altitude_witness :
    computeAltitude none 2 = none
    ∧ computeAltitude (some (-1)) 2 = none
    ∧ computeAltitude (some 1013.25) 1013.25 = some 0 :=
  ⟨(C6_altitude none 2).1 rfl,
   (C6_altitude (some (-1)) 2).2.1 (-1) rfl (by norm_num),
   (C6_altitude (some 1013.25) 1013.25).2.2.2 1013.25 rfl (by norm_num) rfl⟩

end StockWatcher
